import Mathlib

/-!
# titan-lightning: `lightning.go`

A shallow embedding of `Lightning.tickerWork`, `Lightning.switchMode`,
`Lightning.Run`, `Lightning.process` and `Lightning.kvPars`.

The Go code is sequential glue around external collaborators (the storage
backend, the store directory reached through `l.tls`, the titan `db`
encoder).  Every call to a collaborator is appended to a trace held in
`World`; what the collaborator answers is taken from the `Lightning` value,
so every theorem holds for all deterministic collaborators.  A Go `error`
result is an `Option ε` (`none` is `nil`).
-/

namespace TitanLightning

/-! ## Data model -/

/-- `sstpb.SwitchMode`. -/
inductive SwitchMode
  | SwitchMode_Normal
  | SwitchMode_Import
  deriving DecidableEq, Repr

/-- Modelled from the spec: the liveness levels of `kv.StoreState` (declared in
the external backend library), section 3 of the spec:
`Disconnected < Offline < Normal`. -/
inductive StoreState
  | StoreStateDisconnected
  | StoreStateOffline
  | StoreStateNormal
  deriving DecidableEq, Repr

/-- Position of a liveness level in the order `Disconnected < Offline < Normal`. -/
def StoreState.rank : StoreState → Nat
  | StoreStateDisconnected => 0
  | StoreStateOffline => 1
  | StoreStateNormal => 2

/-- `a.atLeast m`: liveness `a` is at or above the threshold `m`. -/
def StoreState.atLeast (a m : StoreState) : Bool :=
  decide (m.rank ≤ a.rank)

/-- `kv.Store`: the fields `switchMode` reads. -/
structure Store where
  Address : String
  State : StoreState
  deriving DecidableEq, Repr

/-- A Go byte slice, as the list of its byte values. -/
abbrev Bytes := List Nat

/-- `common.KvPair`. -/
structure KvPair where
  Key : Bytes
  Val : Bytes
  deriving DecidableEq, Repr

/-- `kv.Rows`, built by `kv.MakeRowsFromKvPairs` from a slice of pairs. -/
abbrev Rows := List KvPair

/-- `DefaultTable` (the spelling is the one of the source). -/
def DefaultTable : String := "defatuTable"

/-- One call made to a collaborator.  A call that receives a `context.Context`
records whether that context is already done at the moment of the call. -/
inductive Event
  | ForAllStores (ctxDone : Bool) (minState : StoreState) (mode : SwitchMode)
  | KvSwitchMode (ctxDone : Bool) (addr : String) (mode : SwitchMode)
  | OpenEngine (ctxDone : Bool) (tableName : String) (engineID : Int)
  | LocalWriter (ctxDone : Bool)
  | WriteRows (ctxDone : Bool) (rows : Rows)
  | WriterClose
  | EngineClose (ctxDone : Bool)
  | Import (ctxDone : Bool)
  | Cleanup (ctxDone : Bool)
  | cancel
  | NewTicker (interval : Nat)
  | TickerStop
  deriving DecidableEq, Repr

/-- The call is the `kv.ForAllStores` of a `switchMode` with the given mode. -/
def Event.isAssertOf (m : SwitchMode) : Event → Bool
  | ForAllStores _ _ mode => decide (mode = m)
  | _ => false

/-- The call goes to the store directory (`kv.ForAllStores`, `kv.SwitchMode`). -/
def Event.isStoreCall : Event → Bool
  | ForAllStores _ _ _ => true
  | KvSwitchMode _ _ _ => true
  | _ => false

/-- The call is `cancel()`. -/
def Event.isCancel : Event → Bool
  | cancel => true
  | _ => false

/-- The call is the close handle's `Cleanup`. -/
def Event.isCleanup : Event → Bool
  | Cleanup _ => true
  | _ => false

/-- What is observable of a run: the calls made so far, whether `cancel()` of
the context created by `Run` has been called, and how many `tickerWork`
goroutines have been started. -/
structure World where
  trace : List Event
  cancelled : Bool
  tickers : Nat
  deriving DecidableEq, Repr

/-- Append a call to the trace. -/
def World.log (w : World) (e : Event) : World :=
  { w with trace := w.trace ++ [e] }

/-- `ctx, cancel := context.WithCancel(l.ctx)`: a fresh, not yet cancelled scope. -/
def World.WithCancel (w : World) : World :=
  { w with cancelled := false }

/-- `go l.tickerWork(ctx)`: the goroutine is started and runs on its own. -/
def World.go (w : World) : World :=
  { w with tickers := w.tickers + 1 }

/-- `cancel()`. -/
def World.cancel (w : World) : World :=
  { (w.log Event.cancel) with cancelled := true }

/-! ## Collaborators -/

/-- The storage backend `*Backend` and the handles it gives out
(`OpenedEngine`, `LocalEngineWriter`, `ClosedEngine`): the error each call
returns.  The first argument is the done flag of the context passed. -/
structure Backend (ε : Type) where
  OpenEngine : Bool → String → Int → Option ε
  LocalWriter : Bool → Option ε
  WriteRows : Bool → Rows → Option ε
  WriterClose : Option ε
  EngineClose : Bool → Option ε
  Import : Bool → Option ε
  Cleanup : Bool → Option ε

/-- The store directory behind `l.tls`: the store listing and the per-store
mode switch `kv.SwitchMode`.  Both may answer differently at every call: they
see the calls made so far. -/
structure StoreDirectory (ε : Type) where
  GetStores : List Event → Bool → Except ε (List Store)
  KvSwitchMode : List Event → Bool → String → SwitchMode → Option ε

/-- `db.DB`. -/
structure DB where
  Namespace : String
  ID : Int
  deriving DecidableEq, Repr

/-- `db.Object`. -/
structure Object where
  CreatedAt : Int
  UpdatedAt : Int
  ExpireAt : Int
  ID : Bytes
  Type_ : Nat
  Encoding : Nat
  deriving DecidableEq, Repr

/-- The titan `db` package, as far as `kvPars` calls it. -/
structure TitanDB where
  MetaKey : DB → Bytes → Bytes
  Now : Int
  UUID : Bytes
  EncodeObject : Object → Bytes
  ObjectString : Nat
  ObjectEncodingRaw : Nat

/-- `conf.Import`, the field read by the code. -/
structure Conf where
  SwitchModInterval : Nat

/-- `Lightning`: `ctxDone` is the state of `l.ctx`, `tls` the cluster reached
through `l.tls`, `db` the encoder package. -/
structure Lightning (ε : Type) where
  ctxDone : Bool
  cfg : Conf
  bk : Backend ε
  tls : StoreDirectory ε
  db : TitanDB

/-- The two contexts of the code: `l.ctx` and the `ctx` that `Run` derives from
it with `context.WithCancel`. -/
inductive Context
  | lctx
  | run
  deriving DecidableEq, Repr

/-- Whether a context is done: `l.ctx` as given, the derived one when its
parent is done or `cancel()` has been called. -/
def Context.done {ε : Type} (l : Lightning ε) (w : World) : Context → Bool
  | lctx => l.ctxDone
  | run => l.ctxDone || w.cancelled

/-! ## The code -/

/-- The loop of `kv.ForAllStores` over the qualifying stores: the action is
run on every store, the first error is kept. -/
def forStores {ε : Type} (action : Store → World → Option ε × World) :
    List Store → World → Option ε × World
  | [], w => (none, w)
  | s :: rest, w =>
    let r := action s w
    let r2 := forStores action rest r.2
    (r.1 <|> r2.1, r2.2)

/-- The stores at or above the liveness threshold, in listing order. -/
def qualifying (minState : StoreState) (stores : List Store) : List Store :=
  stores.filter fun s => s.State.atLeast minState

/-- Modelled from the spec: `kv.ForAllStores` of the external backend library
(section 4.1 and 4.2): list the stores at or above `minState`, run the action
on each of them, return the first error; a failed listing is returned as the
error and no action runs. -/
def ForAllStores {ε : Type} (tls : StoreDirectory ε) (ctx : Bool) (minState : StoreState)
    (action : Bool → Store → World → Option ε × World) (w : World) : Option ε × World :=
  match tls.GetStores w.trace ctx with
  | Except.error err => (some err, w)
  | Except.ok stores => forStores (action ctx) (qualifying minState stores) w

/-- The closure of `switchMode`:
`func(c, store) error { return kv.SwitchMode(c, l.tls, store.Address, mode) }`. -/
def switchStore {ε : Type} (l : Lightning ε) (mode : SwitchMode) (c : Bool) (store : Store)
    (w : World) : Option ε × World :=
  (l.tls.KvSwitchMode w.trace c store.Address mode,
    w.log (Event.KvSwitchMode c store.Address mode))

/-- The threshold chosen at the head of `switchMode`. -/
def minStateOf (mode : SwitchMode) : StoreState :=
  if mode = SwitchMode.SwitchMode_Import then StoreState.StoreStateOffline
  else StoreState.StoreStateDisconnected

/-- `Lightning.switchMode`: the result of `kv.ForAllStores` is dropped
(`_ = kv.ForAllStores(...)`), the function returns nothing. -/
def switchMode {ε : Type} (l : Lightning ε) (ctx : Context) (mode : SwitchMode) (w : World) :
    World :=
  let minState := minStateOf mode
  let c := ctx.done l w
  (ForAllStores l.tls c minState (switchStore l mode) (w.log (Event.ForAllStores c minState mode))).2

/-- What the `select` of `tickerWork` receives in one iteration. -/
inductive Select
  | Done
  | Tick
  deriving DecidableEq, Repr

/-- The `for { select { ... } }` loop of `tickerWork` over the observed
events.  The result is `true` when the function has returned (with the
deferred `modeTicker.Stop()` run) and `false` when the observations end with
the loop still waiting in `select`. -/
def tickerLoop {ε : Type} (l : Lightning ε) (ctx : Context) : List Select → World → Bool × World
  | [], w => (false, w)
  | Select.Done :: _, w => (true, w.log Event.TickerStop)
  | Select.Tick :: rest, w => tickerLoop l ctx rest (switchMode l ctx SwitchMode.SwitchMode_Import w)

/-- `Lightning.tickerWork`. -/
def tickerWork {ε : Type} (l : Lightning ε) (ctx : Context) (obs : List Select) (w : World) :
    Bool × World :=
  tickerLoop l ctx obs (w.log (Event.NewTicker l.cfg.SwitchModInterval))

/-- `Lightning.kvPars`. -/
def kvPars (d : TitanDB) : Rows :=
  let dbv : DB := { Namespace := "default", ID := 0 }
  -- []byte("strkey")
  let key := d.MetaKey dbv [115, 116, 114, 107, 101, 121]
  let now := d.Now
  let obj : Object :=
    { CreatedAt := now, UpdatedAt := now, ExpireAt := 0, ID := d.UUID,
      Type_ := d.ObjectString, Encoding := d.ObjectEncodingRaw }
  let val := d.EncodeObject obj
  -- append(val, []byte("testval")...)
  let val := val ++ [116, 101, 115, 116, 118, 97, 108]
  let result : List KvPair := []
  let result := result ++ [{ Key := key, Val := val }]
  result

/-- `Lightning.process`.  The `zap` log lines are not modelled. -/
def process {ε : Type} (l : Lightning ε) (ctx : Context) (w : World) : Option ε × World :=
  let c0 := Context.lctx.done l w
  let w := w.log (Event.OpenEngine c0 DefaultTable 0)
  match l.bk.OpenEngine c0 DefaultTable 0 with
  | some err => (some err, w)
  | none =>
  let c := ctx.done l w
  let w := w.log (Event.LocalWriter c)
  match l.bk.LocalWriter c with
  | some err => (some err, w)
  | none =>
  let rows := kvPars l.db
  let c := ctx.done l w
  let w := w.log (Event.WriteRows c rows)
  match l.bk.WriteRows c rows with
  | some err => (some err, w)
  | none =>
  let w := w.log Event.WriterClose
  match l.bk.WriterClose with
  | some err => (some err, w)
  | none =>
  let c := ctx.done l w
  let w := w.log (Event.EngineClose c)
  match l.bk.EngineClose c with
  | some err => (some err, w)
  | none =>
  let c := ctx.done l w
  let w := w.log (Event.Import c)
  match l.bk.Import c with
  | some err => (some err, w)
  | none =>
  let c := ctx.done l w
  let w := w.log (Event.Cleanup c)
  match l.bk.Cleanup c with
  | some err => (some err, w)
  | none => (none, w)

/-- `Lightning.Run`. -/
def Run {ε : Type} (l : Lightning ε) (w : World) : Option ε × World :=
  let ctx := Context.run
  let w := w.WithCancel
  let w := w.go
  let w := switchMode l ctx SwitchMode.SwitchMode_Import w
  match process l ctx w with
  | (some err, w) =>
    let w := w.cancel
    (some err, w)
  | (none, w) =>
    let w := w.cancel
    let w := switchMode l ctx SwitchMode.SwitchMode_Normal w
    (none, w)

/-! ## Vocabulary of the statements -/

/-- The seven lifecycle steps of `process`, in the order of the code. -/
inductive Step
  | OpenEngine
  | LocalWriter
  | WriteRows
  | WriterClose
  | EngineClose
  | Import
  | Cleanup
  deriving DecidableEq, Repr

/-- The steps in program order. -/
def Step.all : List Step :=
  [Step.OpenEngine, Step.LocalWriter, Step.WriteRows, Step.WriterClose, Step.EngineClose,
    Step.Import, Step.Cleanup]

/-- Position of a step in program order, from 0. -/
def Step.index : Step → Nat
  | OpenEngine => 0
  | LocalWriter => 1
  | WriteRows => 2
  | WriterClose => 3
  | EngineClose => 4
  | Import => 5
  | Cleanup => 6

/-- The call `process l ctx w` makes for a step (with the arguments of the code). -/
def stepEvent {ε : Type} (l : Lightning ε) (ctx : Context) (w : World) : Step → Event
  | Step.OpenEngine => Event.OpenEngine (Context.lctx.done l w) DefaultTable 0
  | Step.LocalWriter => Event.LocalWriter (ctx.done l w)
  | Step.WriteRows => Event.WriteRows (ctx.done l w) (kvPars l.db)
  | Step.WriterClose => Event.WriterClose
  | Step.EngineClose => Event.EngineClose (ctx.done l w)
  | Step.Import => Event.Import (ctx.done l w)
  | Step.Cleanup => Event.Cleanup (ctx.done l w)

/-- What the backend answers to the call `process l ctx w` makes for a step. -/
def stepOutcome {ε : Type} (l : Lightning ε) (ctx : Context) (w : World) : Step → Option ε
  | Step.OpenEngine => l.bk.OpenEngine (Context.lctx.done l w) DefaultTable 0
  | Step.LocalWriter => l.bk.LocalWriter (ctx.done l w)
  | Step.WriteRows => l.bk.WriteRows (ctx.done l w) (kvPars l.db)
  | Step.WriterClose => l.bk.WriterClose
  | Step.EngineClose => l.bk.EngineClose (ctx.done l w)
  | Step.Import => l.bk.Import (ctx.done l w)
  | Step.Cleanup => l.bk.Cleanup (ctx.done l w)

/-- The steps that run when every failure aborts the rest: all steps up to and
including the first one that fails. -/
def invoked {ε : Type} (outcome : Step → Option ε) : List Step → List Step
  | [] => []
  | s :: rest =>
    match outcome s with
    | some _ => [s]
    | none => s :: invoked outcome rest

/-- The error of the first failing step, `none` when every step succeeds. -/
def firstError {ε : Type} (outcome : Step → Option ε) (steps : List Step) : Option ε :=
  steps.findSome? outcome

/-- The stores a `switchMode l ctx mode` called in world `w` switches: the
listed stores at or above the threshold, none when the listing fails. -/
def switchTargets {ε : Type} (l : Lightning ε) (ctx : Context) (mode : SwitchMode) (w : World) :
    List Store :=
  match l.tls.GetStores (w.trace ++ [Event.ForAllStores (ctx.done l w) (minStateOf mode) mode])
      (ctx.done l w) with
  | Except.error _ => []
  | Except.ok stores => qualifying (minStateOf mode) stores

/-- The calls a `switchMode l ctx mode` makes in world `w`: one
`kv.ForAllStores`, then one `kv.SwitchMode` per targeted store. -/
def switchCalls {ε : Type} (l : Lightning ε) (ctx : Context) (mode : SwitchMode) (w : World) :
    List Event :=
  Event.ForAllStores (ctx.done l w) (minStateOf mode) mode ::
    (switchTargets l ctx mode w).map fun s => Event.KvSwitchMode (ctx.done l w) s.Address mode

/-- The world in which `Run` starts the pipeline: fresh scope, ticker
started, import mode asserted once. -/
def pipelineStart {ε : Type} (l : Lightning ε) (w : World) : World :=
  switchMode l Context.run SwitchMode.SwitchMode_Import w.WithCancel.go

/-- The calls of a trace that do not go to the store directory. -/
def pipelineCalls (t : List Event) : List Event :=
  t.filter fun e => !e.isStoreCall

/-! ## Sample collaborators -/

/-- A cluster of three stores with liveness Normal, Offline, Disconnected. -/
def sampleStores : List Store :=
  [{ Address := "s1", State := StoreState.StoreStateNormal },
    { Address := "s2", State := StoreState.StoreStateOffline },
    { Address := "s3", State := StoreState.StoreStateDisconnected }]

/-- A store directory that always lists `sampleStores` and whose switches succeed. -/
def sampleDirectory : StoreDirectory String :=
  { GetStores := fun _ _ => Except.ok sampleStores
    KvSwitchMode := fun _ _ _ _ => none }

/-- A store directory whose listing fails when its context is done and whose
every per-store switch fails. -/
def failingDirectory : StoreDirectory String :=
  { GetStores := fun _ c => if c then Except.error "context canceled" else Except.ok sampleStores
    KvSwitchMode := fun _ _ _ _ => some "switch failed" }

/-- An encoder that leaves keys as they are and encodes every object as `[1]`. -/
def sampleDB : TitanDB :=
  { MetaKey := fun _ k => k
    Now := 0
    UUID := []
    EncodeObject := fun _ => [1]
    ObjectString := 0
    ObjectEncodingRaw := 0 }

/-- A backend in which the given step fails with the given error (and every
other step succeeds); with `none` every step succeeds. -/
def backendFailing (k : Option Step) (err : String) : Backend String :=
  { OpenEngine := fun _ _ _ => if k = some Step.OpenEngine then some err else none
    LocalWriter := fun _ => if k = some Step.LocalWriter then some err else none
    WriteRows := fun _ _ => if k = some Step.WriteRows then some err else none
    WriterClose := if k = some Step.WriterClose then some err else none
    EngineClose := fun _ => if k = some Step.EngineClose then some err else none
    Import := fun _ => if k = some Step.Import then some err else none
    Cleanup := fun _ => if k = some Step.Cleanup then some err else none }

/-- A `Lightning` over the sample cluster with a live `l.ctx`. -/
def sample (bk : Backend String) : Lightning String :=
  { ctxDone := false
    cfg := { SwitchModInterval := 1 }
    bk := bk
    tls := sampleDirectory
    db := sampleDB }

/-- The world before anything has run. -/
def World.init : World :=
  { trace := [], cancelled := false, tickers := 0 }

/-! ## Basic facts -/

@[simp] theorem log_trace (w : World) (e : Event) : (w.log e).trace = w.trace ++ [e] := rfl

@[simp] theorem log_cancelled (w : World) (e : Event) : (w.log e).cancelled = w.cancelled := rfl

@[simp] theorem log_tickers (w : World) (e : Event) : (w.log e).tickers = w.tickers := rfl

@[simp] theorem done_log {ε : Type} (l : Lightning ε) (w : World) (e : Event) (c : Context) :
    c.done l (w.log e) = c.done l w := by
  cases c <;> rfl

theorem forStores_switchStore {ε : Type} (l : Lightning ε) (mode : SwitchMode) (c : Bool) :
    ∀ (stores : List Store) (w : World),
      (forStores (switchStore l mode c) stores w).2 =
        { w with trace := w.trace ++ stores.map fun s => Event.KvSwitchMode c s.Address mode } := by
  intro stores
  induction stores with
  | nil => intro w; simp [forStores]
  | cons s rest ih =>
    intro w
    simp [forStores, ih, switchStore, World.log]

/-- The effect of `switchMode`: the calls of `switchCalls` are appended, nothing
else changes. -/
theorem switchMode_eq {ε : Type} (l : Lightning ε) (ctx : Context) (mode : SwitchMode)
    (w : World) :
    switchMode l ctx mode w = { w with trace := w.trace ++ switchCalls l ctx mode w } := by
  unfold switchMode ForAllStores switchCalls switchTargets
  simp only [log_trace]
  cases h : l.tls.GetStores
      (w.trace ++ [Event.ForAllStores (ctx.done l w) (minStateOf mode) mode]) (ctx.done l w) with
  | error err => simp [World.log]
  | ok stores => simp [forStores_switchStore, World.log]

/-- The effect of `process`: the steps up to the first failure are called in
order, and the error of that step (if any) is returned. -/
theorem process_eq {ε : Type} (l : Lightning ε) (ctx : Context) (w : World) :
    process l ctx w =
      (firstError (stepOutcome l ctx w) Step.all,
        { w with trace := w.trace ++
            (invoked (stepOutcome l ctx w) Step.all).map (stepEvent l ctx w) }) := by
  unfold process
  simp only [done_log]
  cases h1 : l.bk.OpenEngine (Context.lctx.done l w) DefaultTable 0 <;>
  cases h2 : l.bk.LocalWriter (ctx.done l w) <;>
  cases h3 : l.bk.WriteRows (ctx.done l w) (kvPars l.db) <;>
  cases h4 : l.bk.WriterClose <;>
  cases h5 : l.bk.EngineClose (ctx.done l w) <;>
  cases h6 : l.bk.Import (ctx.done l w) <;>
  cases h7 : l.bk.Cleanup (ctx.done l w) <;>
  simp [firstError, Step.all, invoked, stepOutcome, stepEvent, World.log, h1, h2, h3, h4, h5, h6, h7]

/-- The three ways `Run` can be read off the outcome of `process`. -/
theorem Run_eq {ε : Type} (l : Lightning ε) (w : World) :
    Run l w =
      match (process l Context.run (pipelineStart l w)).1 with
      | some err => (some err, (process l Context.run (pipelineStart l w)).2.cancel)
      | none =>
        (none, switchMode l Context.run SwitchMode.SwitchMode_Normal
          (process l Context.run (pipelineStart l w)).2.cancel) := by
  unfold Run pipelineStart
  dsimp only
  generalize process l Context.run
      (switchMode l Context.run SwitchMode.SwitchMode_Import w.WithCancel.go) = p
  rcases p with ⟨_ | err, w2⟩ <;> rfl

theorem pipelineStart_eq {ε : Type} (l : Lightning ε) (w : World) :
    pipelineStart l w =
      { trace := w.trace ++ switchCalls l Context.run SwitchMode.SwitchMode_Import w.WithCancel.go,
        cancelled := false, tickers := w.tickers + 1 } := by
  unfold pipelineStart
  rw [switchMode_eq]
  rfl

theorem process_cancelled {ε : Type} (l : Lightning ε) (ctx : Context) (w : World) :
    (process l ctx w).2.cancelled = w.cancelled := by
  rw [process_eq]

theorem process_tickers {ε : Type} (l : Lightning ε) (ctx : Context) (w : World) :
    (process l ctx w).2.tickers = w.tickers := by
  rw [process_eq]

theorem process_trace {ε : Type} (l : Lightning ε) (ctx : Context) (w : World) :
    (process l ctx w).2.trace =
      w.trace ++ (invoked (stepOutcome l ctx w) Step.all).map (stepEvent l ctx w) := by
  rw [process_eq]

theorem process_result {ε : Type} (l : Lightning ε) (ctx : Context) (w : World) :
    (process l ctx w).1 = firstError (stepOutcome l ctx w) Step.all := by
  rw [process_eq]

theorem stepOutcome_congr {ε : Type} (l : Lightning ε) (ctx : Context) (w w2 : World)
    (h : w.cancelled = w2.cancelled) : stepOutcome l ctx w = stepOutcome l ctx w2 := by
  funext s
  cases s <;> cases ctx <;> simp [stepOutcome, Context.done, h]

theorem stepEvent_congr {ε : Type} (l : Lightning ε) (ctx : Context) (w w2 : World)
    (h : w.cancelled = w2.cancelled) : stepEvent l ctx w = stepEvent l ctx w2 := by
  funext s
  cases s <;> cases ctx <;> simp [stepEvent, Context.done, h]

theorem stepOutcome_tls {ε : Type} (l : Lightning ε) (tls2 : StoreDirectory ε) (ctx : Context)
    (w : World) : stepOutcome { l with tls := tls2 } ctx w = stepOutcome l ctx w := by
  funext s
  cases s <;> cases ctx <;> rfl

theorem stepEvent_tls {ε : Type} (l : Lightning ε) (tls2 : StoreDirectory ε) (ctx : Context)
    (w : World) : stepEvent { l with tls := tls2 } ctx w = stepEvent l ctx w := by
  funext s
  cases s <;> cases ctx <;> rfl

theorem pipelineStart_cancelled {ε : Type} (l : Lightning ε) (w : World) :
    (pipelineStart l w).cancelled = w.WithCancel.cancelled := by
  rw [pipelineStart_eq]
  rfl

theorem stepEvent_not_store {ε : Type} (l : Lightning ε) (ctx : Context) (w : World) (s : Step) :
    (stepEvent l ctx w s).isStoreCall = false := by
  cases s <;> rfl

theorem stepEvent_not_cancel {ε : Type} (l : Lightning ε) (ctx : Context) (w : World) (s : Step) :
    (stepEvent l ctx w s).isCancel = false := by
  cases s <;> rfl

theorem stepEvent_not_assert {ε : Type} (l : Lightning ε) (ctx : Context) (w : World) (s : Step)
    (m : SwitchMode) : (stepEvent l ctx w s).isAssertOf m = false := by
  cases s <;> rfl

theorem switchCalls_store {ε : Type} (l : Lightning ε) (ctx : Context) (mode : SwitchMode)
    (w : World) : ∀ e ∈ switchCalls l ctx mode w, e.isStoreCall = true := by
  intro e he
  simp only [switchCalls, List.mem_cons, List.mem_map] at he
  rcases he with rfl | ⟨s, _, rfl⟩ <;> rfl

theorem switchCalls_all_store {ε : Type} (l : Lightning ε) (ctx : Context) (mode : SwitchMode)
    (w : World) : (switchCalls l ctx mode w).all Event.isStoreCall = true := by
  rw [List.all_eq_true]
  exact switchCalls_store l ctx mode w

theorem countP_cancel_switchCalls {ε : Type} (l : Lightning ε) (ctx : Context)
    (mode : SwitchMode) (w : World) : (switchCalls l ctx mode w).countP Event.isCancel = 0 := by
  rw [List.countP_eq_zero]
  intro e he
  simp only [switchCalls, List.mem_cons, List.mem_map] at he
  rcases he with rfl | ⟨s, _, rfl⟩ <;> simp [Event.isCancel]

theorem countP_assert_switchCalls {ε : Type} (l : Lightning ε) (ctx : Context)
    (mode m : SwitchMode) (w : World) :
    (switchCalls l ctx mode w).countP (Event.isAssertOf m) = if mode = m then 1 else 0 := by
  have hz : ((switchTargets l ctx mode w).map fun s =>
      Event.KvSwitchMode (ctx.done l w) s.Address mode).countP (Event.isAssertOf m) = 0 := by
    rw [List.countP_eq_zero]
    intro e he
    simp only [List.mem_map] at he
    rcases he with ⟨s, _, rfl⟩
    simp [Event.isAssertOf]
  unfold switchCalls
  rw [List.countP_cons, hz]
  by_cases h : mode = m <;> simp [Event.isAssertOf, h]

theorem countP_steps {ε : Type} (l : Lightning ε) (ctx : Context) (w : World)
    (p : Event → Bool) (hp : ∀ s, p (stepEvent l ctx w s) = false) (steps : List Step) :
    (steps.map (stepEvent l ctx w)).countP p = 0 := by
  rw [List.countP_eq_zero]
  intro e he
  simp only [List.mem_map] at he
  rcases he with ⟨s, _, rfl⟩
  simp [hp s]

theorem pipelineCalls_append (t u : List Event) :
    pipelineCalls (t ++ u) = pipelineCalls t ++ pipelineCalls u := by
  simp [pipelineCalls]

theorem pipelineCalls_switchCalls {ε : Type} (l : Lightning ε) (ctx : Context)
    (mode : SwitchMode) (w : World) : pipelineCalls (switchCalls l ctx mode w) = [] := by
  unfold pipelineCalls
  rw [List.filter_eq_nil_iff]
  intro e he
  simp [switchCalls_store l ctx mode w e he]

theorem pipelineCalls_steps {ε : Type} (l : Lightning ε) (ctx : Context) (w : World)
    (steps : List Step) :
    pipelineCalls (steps.map (stepEvent l ctx w)) = steps.map (stepEvent l ctx w) := by
  unfold pipelineCalls
  rw [List.filter_eq_self]
  intro e he
  simp only [List.mem_map] at he
  rcases he with ⟨s, _, rfl⟩
  simp [stepEvent_not_store]

/-- The trace of `Run`: the initial import-mode assertion, the calls of the
pipeline, `cancel`, and after a successful pipeline the normal-mode assertion. -/
theorem Run_trace {ε : Type} (l : Lightning ε) (w : World) :
    (Run l w).2.trace =
      (process l Context.run (pipelineStart l w)).2.trace ++ Event.cancel ::
        (match (process l Context.run (pipelineStart l w)).1 with
          | some _ => []
          | none => switchCalls l Context.run SwitchMode.SwitchMode_Normal
              (process l Context.run (pipelineStart l w)).2.cancel) := by
  rw [Run_eq]
  cases h : (process l Context.run (pipelineStart l w)).1 with
  | some err => simp [World.cancel]
  | none => simp [switchMode_eq, World.cancel]

theorem Run_result {ε : Type} (l : Lightning ε) (w : World) :
    (Run l w).1 = (process l Context.run (pipelineStart l w)).1 := by
  rw [Run_eq]
  cases h : (process l Context.run (pipelineStart l w)).1 <;> rfl

theorem Run_cancelled {ε : Type} (l : Lightning ε) (w : World) :
    (Run l w).2.cancelled = true := by
  rw [Run_eq]
  cases h : (process l Context.run (pipelineStart l w)).1 with
  | some err => rfl
  | none => simp [switchMode_eq, World.cancel]

theorem Run_tickers {ε : Type} (l : Lightning ε) (w : World) :
    (Run l w).2.tickers = w.tickers + 1 := by
  rw [Run_eq]
  cases h : (process l Context.run (pipelineStart l w)).1 with
  | some err => simp [World.cancel, process_tickers, pipelineStart_eq]
  | none => simp [switchMode_eq, World.cancel, process_tickers, pipelineStart_eq]

/-- The calls of `Run` outside the store directory: the pipeline steps up to the
first failure, then `cancel`. -/
theorem Run_pipelineCalls {ε : Type} (l : Lightning ε) (w : World) :
    pipelineCalls (Run l w).2.trace =
      pipelineCalls w.trace ++
        (invoked (stepOutcome l Context.run w.WithCancel) Step.all).map
          (stepEvent l Context.run w.WithCancel) ++ [Event.cancel] := by
  have hc := pipelineStart_cancelled l w
  have hpost : pipelineCalls (match (process l Context.run (pipelineStart l w)).1 with
      | some _ => []
      | none => switchCalls l Context.run SwitchMode.SwitchMode_Normal
          (process l Context.run (pipelineStart l w)).2.cancel) = [] := by
    cases (process l Context.run (pipelineStart l w)).1 with
    | some err => rfl
    | none => exact pipelineCalls_switchCalls _ _ _ _
  have hcons : ∀ t : List Event, pipelineCalls (Event.cancel :: t) =
      Event.cancel :: pipelineCalls t := by
    intro t
    simp [pipelineCalls, Event.isStoreCall]
  have hstart : pipelineCalls (pipelineStart l w).trace = pipelineCalls w.trace := by
    rw [pipelineStart_eq]
    simp [pipelineCalls_append, pipelineCalls_switchCalls]
  rw [Run_trace, pipelineCalls_append, hcons, hpost, process_trace, pipelineCalls_append,
    pipelineCalls_steps, stepOutcome_congr l Context.run _ _ hc,
    stepEvent_congr l Context.run _ _ hc, hstart]

/-! ## The import pipeline (`process`) -/

/-- C5: in `process`, when step `k` of the seven lifecycle steps is the first to
fail, the calls made are exactly those of steps 1..k, once each and in program
order, no later step is called, and the error returned is the one step `k`
produced. -/
theorem process_first_failure {ε : Type} (l : Lightning ε) (ctx : Context) (w : World)
    (k : Step) (e : ε)
    (hprev : ∀ s : Step, s.index < k.index → stepOutcome l ctx w s = none)
    (hk : stepOutcome l ctx w k = some e) :
    process l ctx w =
      (some e,
        { w with trace := w.trace ++ (Step.all.take (k.index + 1)).map (stepEvent l ctx w) }) := by
  rw [process_eq]
  have h0 := hprev Step.OpenEngine
  have h1 := hprev Step.LocalWriter
  have h2 := hprev Step.WriteRows
  have h3 := hprev Step.WriterClose
  have h4 := hprev Step.EngineClose
  have h5 := hprev Step.Import
  cases k <;> simp [Step.index] at h0 h1 h2 h3 h4 h5 <;>
    simp [firstError, Step.all, invoked, Step.index, *]

/-- C5, at a concrete input: when `WriteRows` fails, `process` calls
`OpenEngine`, `LocalWriter` and `WriteRows` and nothing else (no writer close,
engine close, import or cleanup), and returns the `WriteRows` error. -/
theorem process_first_failure_witness :
    (∀ s : Step, s.index < Step.WriteRows.index →
        stepOutcome (sample (backendFailing (some Step.WriteRows) "write failed"))
          Context.run World.init s = none) ∧
      stepOutcome (sample (backendFailing (some Step.WriteRows) "write failed"))
          Context.run World.init Step.WriteRows = some "write failed" ∧
      process (sample (backendFailing (some Step.WriteRows) "write failed"))
          Context.run World.init =
        (some "write failed",
          { trace := [Event.OpenEngine false DefaultTable 0, Event.LocalWriter false,
              Event.WriteRows false
                [{ Key := [115, 116, 114, 107, 101, 121],
                   Val := [1, 116, 101, 115, 116, 118, 97, 108] }]],
            cancelled := false, tickers := 0 }) :=
  ⟨by intro s hs; cases s <;> first | rfl | (simp [Step.index] at hs),
    rfl,
    process_first_failure (sample (backendFailing (some Step.WriteRows) "write failed"))
      Context.run World.init Step.WriteRows "write failed"
      (by intro s hs; cases s <;> first | rfl | (simp [Step.index] at hs)) rfl⟩

/-- C2, as stated, fails: with the five steps up to engine close succeeding and
`Import` failing, `process` returns right after `Import` and `Cleanup` is never
called (zero times, not once). -/
theorem process_import_failure_no_cleanup :
    ((Step.all.take 5).all fun s =>
        (stepOutcome (sample (backendFailing (some Step.Import) "import failed"))
          Context.run World.init s).isNone) = true ∧
      stepOutcome (sample (backendFailing (some Step.Import) "import failed"))
          Context.run World.init Step.Import = some "import failed" ∧
      process (sample (backendFailing (some Step.Import) "import failed"))
          Context.run World.init =
        (some "import failed",
          { trace := [Event.OpenEngine false DefaultTable 0, Event.LocalWriter false,
              Event.WriteRows false
                [{ Key := [115, 116, 114, 107, 101, 121],
                   Val := [1, 116, 101, 115, 116, 118, 97, 108] }],
              Event.WriterClose, Event.EngineClose false, Event.Import false],
            cancelled := false, tickers := 0 }) ∧
      ¬ ((process (sample (backendFailing (some Step.Import) "import failed"))
          Context.run World.init).2.trace.countP Event.isCleanup = 1) :=
  ⟨by decide, rfl, rfl, by decide⟩

/-- C2, amended: in `process`, when all steps up to engine close succeed and
the close handle's `Import` fails, `process` returns the `Import` error, the
calls made are the six up to `Import`, and `Cleanup` is not called. -/
theorem process_import_failure {ε : Type} (l : Lightning ε) (ctx : Context) (w : World) (e : ε)
    (hprev : ∀ s : Step, s.index < Step.Import.index → stepOutcome l ctx w s = none)
    (himport : stepOutcome l ctx w Step.Import = some e) :
    (process l ctx w).1 = some e ∧
      (process l ctx w).2.trace =
        w.trace ++ [Event.OpenEngine (Context.lctx.done l w) DefaultTable 0,
          Event.LocalWriter (ctx.done l w), Event.WriteRows (ctx.done l w) (kvPars l.db),
          Event.WriterClose, Event.EngineClose (ctx.done l w), Event.Import (ctx.done l w)] ∧
      (process l ctx w).2.trace.countP Event.isCleanup = w.trace.countP Event.isCleanup := by
  rw [process_eq]
  have h0 := hprev Step.OpenEngine (by decide)
  have h1 := hprev Step.LocalWriter (by decide)
  have h2 := hprev Step.WriteRows (by decide)
  have h3 := hprev Step.WriterClose (by decide)
  have h4 := hprev Step.EngineClose (by decide)
  simp [firstError, Step.all, invoked, stepEvent, Event.isCleanup, List.countP_append,
    List.countP_cons, h0, h1, h2, h3, h4, himport]

/-- C2, amended, at a concrete input: `Import` fails on the sample cluster. -/
theorem process_import_failure_witness :
    (∀ s : Step, s.index < Step.Import.index →
        stepOutcome (sample (backendFailing (some Step.Import) "import failed"))
          Context.run World.init s = none) ∧
      (process (sample (backendFailing (some Step.Import) "import failed"))
          Context.run World.init).1 = some "import failed" ∧
      (process (sample (backendFailing (some Step.Import) "import failed"))
          Context.run World.init).2.trace.countP Event.isCleanup = 0 :=
  ⟨by intro s hs; cases s <;> first | rfl | (simp [Step.index] at hs),
    (process_import_failure (sample (backendFailing (some Step.Import) "import failed"))
      Context.run World.init "import failed"
      (by intro s hs; cases s <;> first | rfl | (simp [Step.index] at hs)) rfl).1,
    (process_import_failure (sample (backendFailing (some Step.Import) "import failed"))
      Context.run World.init "import failed"
      (by intro s hs; cases s <;> first | rfl | (simp [Step.index] at hs)) rfl).2.2⟩

/-! ## The orchestrator (`Run`) -/

/-- C4: when every pipeline step succeeds, `Run` returns `nil` and the calls it
makes are exactly, in this order: the import-mode assertion (its
`kv.ForAllStores` with threshold Offline and the per-store switches), then
`OpenEngine(DefaultTable, 0)`, `LocalWriter`, `WriteRows(rows)`, writer `Close`,
engine `Close`, `Import`, `Cleanup`, `cancel`, then the normal-mode assertion
(threshold Disconnected); each once.  The import-mode assertion is complete
before `OpenEngine`. -/
theorem Run_success_trace {ε : Type} (l : Lightning ε) (w : World)
    (h : ∀ s : Step, stepOutcome l Context.run (pipelineStart l w) s = none) :
    (Run l w).1 = none ∧
      (Run l w).2.trace =
        w.trace ++
          (Event.ForAllStores l.ctxDone StoreState.StoreStateOffline SwitchMode.SwitchMode_Import ::
            (switchTargets l Context.run SwitchMode.SwitchMode_Import w.WithCancel.go).map
              fun s => Event.KvSwitchMode l.ctxDone s.Address SwitchMode.SwitchMode_Import) ++
          [Event.OpenEngine l.ctxDone DefaultTable 0, Event.LocalWriter l.ctxDone,
            Event.WriteRows l.ctxDone (kvPars l.db), Event.WriterClose,
            Event.EngineClose l.ctxDone, Event.Import l.ctxDone, Event.Cleanup l.ctxDone,
            Event.cancel] ++
          (Event.ForAllStores true StoreState.StoreStateDisconnected
              SwitchMode.SwitchMode_Normal ::
            (switchTargets l Context.run SwitchMode.SwitchMode_Normal
              (process l Context.run (pipelineStart l w)).2.cancel).map
              fun s => Event.KvSwitchMode true s.Address SwitchMode.SwitchMode_Normal) := by
  have hres : (process l Context.run (pipelineStart l w)).1 = none := by
    rw [process_result]
    simp [firstError, Step.all, h]
  have hdone : Context.run.done l (pipelineStart l w) = l.ctxDone := by
    simp [Context.done, pipelineStart_cancelled, World.WithCancel]
  have hdone0 : Context.lctx.done l (pipelineStart l w) = l.ctxDone := rfl
  refine ⟨by rw [Run_result, hres], ?_⟩
  rw [Run_trace, hres, process_trace]
  simp only [invoked, Step.all, h, List.map, stepEvent, hdone, hdone0]
  rw [pipelineStart_eq]
  simp [switchCalls, Context.done, World.cancel, process_cancelled, World.WithCancel, World.go,
    minStateOf]

/-- C4, at a concrete input: the sample cluster with a backend whose steps all
succeed. -/
theorem Run_success_trace_witness :
    (∀ s : Step, stepOutcome (sample (backendFailing none "")) Context.run
        (pipelineStart (sample (backendFailing none "")) World.init) s = none) ∧
      Run (sample (backendFailing none "")) World.init =
        (none,
          { trace :=
              [Event.ForAllStores false StoreState.StoreStateOffline SwitchMode.SwitchMode_Import,
                Event.KvSwitchMode false "s1" SwitchMode.SwitchMode_Import,
                Event.KvSwitchMode false "s2" SwitchMode.SwitchMode_Import,
                Event.OpenEngine false DefaultTable 0, Event.LocalWriter false,
                Event.WriteRows false
                  [{ Key := [115, 116, 114, 107, 101, 121],
                     Val := [1, 116, 101, 115, 116, 118, 97, 108] }],
                Event.WriterClose, Event.EngineClose false, Event.Import false,
                Event.Cleanup false, Event.cancel,
                Event.ForAllStores true StoreState.StoreStateDisconnected
                  SwitchMode.SwitchMode_Normal,
                Event.KvSwitchMode true "s1" SwitchMode.SwitchMode_Normal,
                Event.KvSwitchMode true "s2" SwitchMode.SwitchMode_Normal,
                Event.KvSwitchMode true "s3" SwitchMode.SwitchMode_Normal],
            cancelled := true, tickers := 1 }) ∧
      (Run (sample (backendFailing none "")) World.init).1 = none :=
  ⟨by intro s; cases s <;> rfl, rfl,
    (Run_success_trace (sample (backendFailing none "")) World.init
      (by intro s; cases s <;> rfl)).1⟩

/-- C6: `Run` returns exactly what `process` returned: the same error when
`process` fails, `nil` when it succeeds.  That value is the error of the first
failing backend step, so it does not depend on the store directory: replacing
the directory (and with it every mode-switch outcome) leaves it unchanged. -/
theorem Run_returns_process_result {ε : Type} (l : Lightning ε) (w : World) :
    (Run l w).1 = (process l Context.run (pipelineStart l w)).1 ∧
      (Run l w).1 = firstError (stepOutcome l Context.run w.WithCancel) Step.all ∧
      ∀ tls2 : StoreDirectory ε, (Run { l with tls := tls2 } w).1 = (Run l w).1 := by
  have key : ∀ l2 : Lightning ε,
      (Run l2 w).1 = firstError (stepOutcome l2 Context.run w.WithCancel) Step.all := by
    intro l2
    rw [Run_result, process_result,
      stepOutcome_congr l2 Context.run _ _ (pipelineStart_cancelled l2 w)]
  refine ⟨Run_result l w, key l, ?_⟩
  intro tls2
  rw [key, key, stepOutcome_tls]

/-- C7: whatever `process` returns, `Run` calls `cancel()` exactly once, after
the last call of `process` and before it returns: the scope is cancelled when
`Run` returns, the trace gains exactly one `cancel`, and that `cancel` follows
the trace of `process` and is followed by store-directory calls only. -/
theorem Run_cancels_once {ε : Type} (l : Lightning ε) (w : World) :
    (Run l w).2.cancelled = true ∧
      (Run l w).2.trace.countP Event.isCancel = w.trace.countP Event.isCancel + 1 ∧
      ∃ post : List Event,
        (Run l w).2.trace =
          (process l Context.run (pipelineStart l w)).2.trace ++ Event.cancel :: post ∧
        post.all Event.isStoreCall = true := by
  refine ⟨Run_cancelled l w, ?_, ?_⟩
  · rw [Run_trace, process_trace, pipelineStart_eq]
    simp only [List.countP_append, List.countP_cons, countP_cancel_switchCalls,
      countP_steps _ _ _ Event.isCancel (stepEvent_not_cancel _ _ _)]
    cases (process l Context.run _).1 with
    | some err => simp [Event.isCancel]
    | none => simp [Event.isCancel, countP_cancel_switchCalls]
  · refine ⟨_, Run_trace l w, ?_⟩
    cases (process l Context.run (pipelineStart l w)).1 with
    | some err => rfl
    | none => exact switchCalls_all_store _ _ _ _

/-- On every run in which `process` fails, `Run` calls `cancel()` and returns
the error at once: `cancel` is the last call and the trace gains no
normal-mode assertion. -/
theorem Run_error_branch {ε : Type} (l : Lightning ε) (w : World) (e : ε)
    (h : (process l Context.run (pipelineStart l w)).1 = some e) :
    Run l w = (some e, (process l Context.run (pipelineStart l w)).2.cancel) ∧
      (Run l w).2.trace = (process l Context.run (pipelineStart l w)).2.trace ++ [Event.cancel] ∧
      (Run l w).2.trace.countP (Event.isAssertOf SwitchMode.SwitchMode_Normal) =
        w.trace.countP (Event.isAssertOf SwitchMode.SwitchMode_Normal) := by
  refine ⟨by rw [Run_eq, h], by rw [Run_trace, h], ?_⟩
  rw [Run_trace, h, process_trace, pipelineStart_eq]
  simp [List.countP_append, List.countP_cons, countP_assert_switchCalls, Event.isAssertOf,
    countP_steps _ _ _ _ (fun s => stepEvent_not_assert _ _ _ s SwitchMode.SwitchMode_Normal)]

/-- C1: the code at a failing input.  The claim asks for a normal-mode
assertion after the failing pipeline step; when `WriteRows` fails on the
sample cluster, `Run` asserts import mode, runs the pipeline up to `WriteRows`,
calls `cancel()` and returns the error: `cancel` is its last call and the trace
holds no normal-mode assertion, while the success branch of the same function
makes one. -/
theorem Run_failure_leaves_import_mode :
    Run (sample (backendFailing (some Step.WriteRows) "write failed")) World.init =
        (some "write failed",
          { trace :=
              [Event.ForAllStores false StoreState.StoreStateOffline SwitchMode.SwitchMode_Import,
                Event.KvSwitchMode false "s1" SwitchMode.SwitchMode_Import,
                Event.KvSwitchMode false "s2" SwitchMode.SwitchMode_Import,
                Event.OpenEngine false DefaultTable 0, Event.LocalWriter false,
                Event.WriteRows false
                  [{ Key := [115, 116, 114, 107, 101, 121],
                     Val := [1, 116, 101, 115, 116, 118, 97, 108] }],
                Event.cancel],
            cancelled := true, tickers := 1 }) ∧
      (Run (sample (backendFailing (some Step.WriteRows) "write failed"))
          World.init).2.trace.countP (Event.isAssertOf SwitchMode.SwitchMode_Normal) = 0 ∧
      (Run (sample (backendFailing none "")) World.init).2.trace.countP
          (Event.isAssertOf SwitchMode.SwitchMode_Normal) = 1 :=
  ⟨rfl, by decide, by decide⟩

/-- On every run in which `process` succeeds, the context `Run` hands to the
final `switchMode` is done at the moment of the call: `cancel()` comes first,
and the `kv.ForAllStores` of the normal-mode assertion and every per-store
switch record a done context. -/
theorem Run_success_branch {ε : Type} (l : Lightning ε) (w : World)
    (h : (process l Context.run (pipelineStart l w)).1 = none) :
    Context.run.done l (process l Context.run (pipelineStart l w)).2.cancel = true ∧
      (Run l w).2.trace =
        (process l Context.run (pipelineStart l w)).2.trace ++ Event.cancel ::
          Event.ForAllStores true StoreState.StoreStateDisconnected
            SwitchMode.SwitchMode_Normal ::
          (switchTargets l Context.run SwitchMode.SwitchMode_Normal
            (process l Context.run (pipelineStart l w)).2.cancel).map
            fun s => Event.KvSwitchMode true s.Address SwitchMode.SwitchMode_Normal := by
  have hdone : Context.run.done l (process l Context.run (pipelineStart l w)).2.cancel = true := by
    simp [Context.done, World.cancel]
  refine ⟨hdone, ?_⟩
  rw [Run_trace, h]
  simp only [switchCalls, hdone]
  rfl

/-- C3: the code at a failing input.  The claim asks that the context passed
to the final normal-mode assertion is not yet cancelled at the moment of the
call; in a successful run over the sample cluster `cancel()` is called first
and the same context, now done, is handed to `switchMode`, while the
import-mode assertion at the start of the run received it live. -/
theorem Run_normal_mode_ctx_done :
    Run (sample (backendFailing none "")) World.init =
        (none,
          { trace :=
              [Event.ForAllStores false StoreState.StoreStateOffline SwitchMode.SwitchMode_Import,
                Event.KvSwitchMode false "s1" SwitchMode.SwitchMode_Import,
                Event.KvSwitchMode false "s2" SwitchMode.SwitchMode_Import,
                Event.OpenEngine false DefaultTable 0, Event.LocalWriter false,
                Event.WriteRows false
                  [{ Key := [115, 116, 114, 107, 101, 121],
                     Val := [1, 116, 101, 115, 116, 118, 97, 108] }],
                Event.WriterClose, Event.EngineClose false, Event.Import false,
                Event.Cleanup false, Event.cancel,
                Event.ForAllStores true StoreState.StoreStateDisconnected
                  SwitchMode.SwitchMode_Normal,
                Event.KvSwitchMode true "s1" SwitchMode.SwitchMode_Normal,
                Event.KvSwitchMode true "s2" SwitchMode.SwitchMode_Normal,
                Event.KvSwitchMode true "s3" SwitchMode.SwitchMode_Normal],
            cancelled := true, tickers := 1 }) ∧
      Context.run.done (sample (backendFailing none ""))
        (process (sample (backendFailing none "")) Context.run
          (pipelineStart (sample (backendFailing none "")) World.init)).2.cancel = true ∧
      Context.run.done (sample (backendFailing none ""))
        (World.init.WithCancel.go) = false :=
  ⟨rfl, rfl, rfl⟩

/-- A run over a directory whose listing fails on a done context and whose
every switch fails: the result is still `nil`, and the final assertion, made
with a done context, switches no store. -/
theorem Run_failingDirectory :
    Run { sample (backendFailing none "") with tls := failingDirectory } World.init =
      (none,
        { trace :=
            [Event.ForAllStores false StoreState.StoreStateOffline SwitchMode.SwitchMode_Import,
              Event.KvSwitchMode false "s1" SwitchMode.SwitchMode_Import,
              Event.KvSwitchMode false "s2" SwitchMode.SwitchMode_Import,
              Event.OpenEngine false DefaultTable 0, Event.LocalWriter false,
              Event.WriteRows false
                [{ Key := [115, 116, 114, 107, 101, 121],
                   Val := [1, 116, 101, 115, 116, 118, 97, 108] }],
              Event.WriterClose, Event.EngineClose false, Event.Import false,
              Event.Cleanup false, Event.cancel,
              Event.ForAllStores true StoreState.StoreStateDisconnected
                SwitchMode.SwitchMode_Normal],
          cancelled := true, tickers := 1 }) :=
  rfl

/-! ## The mode coordinator (`switchMode`, `tickerWork`) -/

theorem qualifying_mem (m : StoreState) (stores : List Store) (s : Store) :
    s ∈ qualifying m stores ↔ s ∈ stores ∧ m.rank ≤ s.State.rank := by
  simp [qualifying, StoreState.atLeast]

theorem qualifying_import_sublist_normal (stores : List Store) :
    (qualifying (minStateOf SwitchMode.SwitchMode_Import) stores).Sublist
      (qualifying (minStateOf SwitchMode.SwitchMode_Normal) stores) := by
  induction stores with
  | nil => exact List.Sublist.slnil
  | cons s rest ih =>
    rcases s with ⟨a, st⟩
    cases st
    · exact List.Sublist.cons _ ih
    · exact List.Sublist.cons₂ _ ih
    · exact List.Sublist.cons₂ _ ih

/-- C8: `switchMode` takes the threshold from the mode alone (Offline
for Import, Disconnected for any other mode).  When the directory lists `stores`,
the calls of `switchMode` are one `kv.ForAllStores` with that threshold and one
`kv.SwitchMode` per listed store at or above it, in listing order; so Import
switches only stores at or above Offline, Normal those at or above
Disconnected, and the stores switched for Import are among those switched for
Normal. -/
theorem switchMode_targets {ε : Type} (l : Lightning ε) (ctx : Context) (mode : SwitchMode)
    (w : World) (stores : List Store)
    (h : l.tls.GetStores
        (w.trace ++ [Event.ForAllStores (ctx.done l w) (minStateOf mode) mode])
        (ctx.done l w) = Except.ok stores) :
    minStateOf SwitchMode.SwitchMode_Import = StoreState.StoreStateOffline ∧
      (∀ m : SwitchMode, m ≠ SwitchMode.SwitchMode_Import →
        minStateOf m = StoreState.StoreStateDisconnected) ∧
      (switchMode l ctx mode w).trace =
        w.trace ++ Event.ForAllStores (ctx.done l w) (minStateOf mode) mode ::
          (qualifying (minStateOf mode) stores).map
            (fun s => Event.KvSwitchMode (ctx.done l w) s.Address mode) ∧
      (∀ s : Store, s ∈ qualifying (minStateOf mode) stores ↔
        s ∈ stores ∧ (minStateOf mode).rank ≤ s.State.rank) ∧
      (qualifying (minStateOf SwitchMode.SwitchMode_Import) stores).Sublist
        (qualifying (minStateOf SwitchMode.SwitchMode_Normal) stores) := by
  refine ⟨rfl, ?_, ?_, qualifying_mem _ stores, qualifying_import_sublist_normal stores⟩
  · intro m hm
    simp [minStateOf, hm]
  · rw [switchMode_eq]
    simp [switchCalls, switchTargets, h]

/-- C8, at the stores {Normal, Offline, Disconnected}: Import switches exactly
the first two, Normal all three. -/
theorem switchMode_targets_witness :
    sampleDirectory.GetStores
        (World.init.trace ++ [Event.ForAllStores false
          (minStateOf SwitchMode.SwitchMode_Import) SwitchMode.SwitchMode_Import])
        false = Except.ok sampleStores ∧
      (switchMode (sample (backendFailing none "")) Context.run SwitchMode.SwitchMode_Import
          World.init).trace =
        [Event.ForAllStores false StoreState.StoreStateOffline SwitchMode.SwitchMode_Import,
          Event.KvSwitchMode false "s1" SwitchMode.SwitchMode_Import,
          Event.KvSwitchMode false "s2" SwitchMode.SwitchMode_Import] ∧
      (switchMode (sample (backendFailing none "")) Context.run SwitchMode.SwitchMode_Normal
          World.init).trace =
        [Event.ForAllStores false StoreState.StoreStateDisconnected SwitchMode.SwitchMode_Normal,
          Event.KvSwitchMode false "s1" SwitchMode.SwitchMode_Normal,
          Event.KvSwitchMode false "s2" SwitchMode.SwitchMode_Normal,
          Event.KvSwitchMode false "s3" SwitchMode.SwitchMode_Normal] :=
  ⟨rfl,
    (switchMode_targets (sample (backendFailing none "")) Context.run
      SwitchMode.SwitchMode_Import World.init sampleStores rfl).2.2.1,
    (switchMode_targets (sample (backendFailing none "")) Context.run
      SwitchMode.SwitchMode_Normal World.init sampleStores rfl).2.2.1⟩

theorem tickerLoop_status {ε : Type} (l : Lightning ε) (ctx : Context) :
    ∀ (obs : List Select) (w : World),
      (tickerLoop l ctx obs w).1 = decide (Select.Done ∈ obs) := by
  intro obs
  induction obs with
  | nil => intro w; simp [tickerLoop]
  | cons o rest ih =>
    intro w
    cases o
    · simp [tickerLoop]
    · simp [tickerLoop, ih]

theorem tickerLoop_count {ε : Type} (l : Lightning ε) (ctx : Context) (m : SwitchMode) :
    ∀ (obs : List Select) (w : World),
      (tickerLoop l ctx obs w).2.trace.countP (Event.isAssertOf m) =
        w.trace.countP (Event.isAssertOf m) +
          if m = SwitchMode.SwitchMode_Import then
            (obs.takeWhile fun o => decide (o = Select.Tick)).length
          else 0 := by
  intro obs
  induction obs with
  | nil => intro w; simp [tickerLoop]
  | cons o rest ih =>
    intro w
    cases o
    · simp [tickerLoop, List.countP_append, Event.isAssertOf]
    · rw [tickerLoop, ih, switchMode_eq]
      simp only [List.countP_append, countP_assert_switchCalls]
      by_cases hm : m = SwitchMode.SwitchMode_Import
      · subst hm
        simp [List.takeWhile_cons]
        omega
      · have hm2 : ¬ SwitchMode.SwitchMode_Import = m := fun h => hm h.symm
        simp [hm, hm2]

theorem tickerLoop_cut {ε : Type} (l : Lightning ε) (ctx : Context) (post : List Select) :
    ∀ (pre : List Select) (w : World),
      tickerLoop l ctx (pre ++ Select.Done :: post) w =
        tickerLoop l ctx (pre ++ [Select.Done]) w := by
  intro pre
  induction pre with
  | nil => intro w; simp [tickerLoop]
  | cons o rest ih =>
    intro w
    cases o
    · simp [tickerLoop]
    · simp [tickerLoop, ih]

/-- C9: in `tickerWork`, over any sequence of observations, every Tick observed
before the first Done issues exactly one import-mode assertion and no
normal-mode assertion is ever issued, so the number of assertions equals the
number of Ticks before the first Done; the function returns exactly when a Done
is observed, and nothing observed after that Done has any effect. -/
theorem tickerWork_asserts {ε : Type} (l : Lightning ε) (ctx : Context) (obs : List Select)
    (w : World) :
    ((tickerWork l ctx obs w).1 = true ↔ Select.Done ∈ obs) ∧
      (tickerWork l ctx obs w).2.trace.countP (Event.isAssertOf SwitchMode.SwitchMode_Import) =
        w.trace.countP (Event.isAssertOf SwitchMode.SwitchMode_Import) +
          (obs.takeWhile fun o => decide (o = Select.Tick)).length ∧
      (tickerWork l ctx obs w).2.trace.countP (Event.isAssertOf SwitchMode.SwitchMode_Normal) =
        w.trace.countP (Event.isAssertOf SwitchMode.SwitchMode_Normal) ∧
      (∀ rest : List Select,
        tickerLoop l ctx (Select.Tick :: rest) w =
          tickerLoop l ctx rest (switchMode l ctx SwitchMode.SwitchMode_Import w)) ∧
      (∀ rest : List Select,
        tickerLoop l ctx (Select.Done :: rest) w = (true, w.log Event.TickerStop)) ∧
      ∀ pre post : List Select,
        tickerWork l ctx (pre ++ Select.Done :: post) w =
          tickerWork l ctx (pre ++ [Select.Done]) w := by
  refine ⟨?_, ?_, ?_, fun _ => rfl, fun _ => rfl, ?_⟩
  · rw [tickerWork, tickerLoop_status]
    simp
  · rw [tickerWork, tickerLoop_count]
    simp [List.countP_append, Event.isAssertOf]
  · rw [tickerWork, tickerLoop_count]
    simp [List.countP_append, Event.isAssertOf]
  · intro pre post
    rw [tickerWork, tickerWork, tickerLoop_cut]

/-- C10: `switchMode` returns no error and leaves everything but the list of
store-directory calls as it was, whatever the directory answers.  Its callers
cannot tell one directory from another: with any other directory `tls2` (for
one, all switches failing or the listing failing) `switchMode` leaves the same
scope state, `Run` returns the same result and makes the same calls outside
the store directory, and `tickerWork` returns in the same cases. -/
theorem switchMode_never_fails {ε : Type} (l : Lightning ε) (tls2 : StoreDirectory ε)
    (ctx : Context) (mode : SwitchMode) (w : World) (obs : List Select) :
    (switchMode l ctx mode w).cancelled = w.cancelled ∧
      (switchMode l ctx mode w).tickers = w.tickers ∧
      pipelineCalls (switchMode l ctx mode w).trace = pipelineCalls w.trace ∧
      (Run { l with tls := tls2 } w).1 = (Run l w).1 ∧
      pipelineCalls (Run { l with tls := tls2 } w).2.trace = pipelineCalls (Run l w).2.trace ∧
      (Run { l with tls := tls2 } w).2.cancelled = (Run l w).2.cancelled ∧
      (Run { l with tls := tls2 } w).2.tickers = (Run l w).2.tickers ∧
      (tickerWork { l with tls := tls2 } ctx obs w).1 = (tickerWork l ctx obs w).1 := by
  refine ⟨by rw [switchMode_eq], by rw [switchMode_eq], ?_, ?_, ?_, ?_, ?_, ?_⟩
  · rw [switchMode_eq]
    simp [pipelineCalls_append, pipelineCalls_switchCalls]
  · rw [Run_result, Run_result, process_result, process_result,
      stepOutcome_congr _ Context.run _ _ (pipelineStart_cancelled { l with tls := tls2 } w),
      stepOutcome_congr _ Context.run _ _ (pipelineStart_cancelled l w), stepOutcome_tls]
  · rw [Run_pipelineCalls, Run_pipelineCalls, stepOutcome_tls, stepEvent_tls]
  · rw [Run_cancelled, Run_cancelled]
  · rw [Run_tickers, Run_tickers]
  · rw [tickerWork, tickerWork, tickerLoop_status, tickerLoop_status]

/-- Two ticks, then cancellation, then three more ticks of the clock:
two import-mode assertions, the ticker is stopped, nothing after that. -/
theorem tickerWork_sample :
    tickerWork (sample (backendFailing none "")) Context.run
        [Select.Tick, Select.Tick, Select.Done, Select.Tick, Select.Tick, Select.Tick]
        World.init =
      (true,
        { trace :=
            [Event.NewTicker 1,
              Event.ForAllStores false StoreState.StoreStateOffline SwitchMode.SwitchMode_Import,
              Event.KvSwitchMode false "s1" SwitchMode.SwitchMode_Import,
              Event.KvSwitchMode false "s2" SwitchMode.SwitchMode_Import,
              Event.ForAllStores false StoreState.StoreStateOffline SwitchMode.SwitchMode_Import,
              Event.KvSwitchMode false "s1" SwitchMode.SwitchMode_Import,
              Event.KvSwitchMode false "s2" SwitchMode.SwitchMode_Import,
              Event.TickerStop],
          cancelled := false, tickers := 0 }) :=
  rfl

end TitanLightning
